import Mathlib

/-
Shallow embedding of the OTP subsystem of `node-be-common-lib`
(src/otp: OtpGenerator, OtpHashService, OtpService in its two variants,
and the option types with their defaults).

Modelling conventions:
* TS partial option objects become structures with `Option` fields;
  `none` models an absent key.  The JS object spread `{...cur, ...o}`
  becomes a field-wise `o.f <|> cur.f` merge.
* Node's `createHmac(algorithm, key).update(msg).digest('base64')` is an
  external primitive; it is passed in as an abstract parameter
  `hmac : HmacFn`.  The TS code forwards the stored (possibly absent)
  `algorithm` and `salt` unchanged (the `as string` casts), so the
  parameter takes `Option` arguments.
* Node's `crypto.timingSafeEqual` throws a `RangeError` when the two
  buffers have different byte lengths; fallible results are `Except Unit`.
  `Buffer.from(s)` is the UTF-8 encoding of `s`; UTF-8 is injective, so
  two equal-byte-length buffers are equal iff the strings are equal, and
  the byte length is `String.utf8ByteSize`.
* `crypto.randomBytes` output is passed as a parameter `bytes : Nat → Nat`
  giving the i-th random byte.
* JS `Date` values are their millisecond epoch values, modelled as `Int`;
  `Date.now()` / `new Date()` become an explicit `now : Int` parameter.
-/

/-- `HashAlgorithm` from src/otp/types.ts: the fixed enumerated set. -/
inductive HashAlgorithm where
  | sha256
  | sha512
deriving DecidableEq

/-- `HashOptions` from src/otp/types.ts; both keys are optional. -/
structure HashOptions where
  algorithm : Option HashAlgorithm
  salt : Option String
deriving DecidableEq

/-- `DEFAULT_HASH_OPTIONS` from src/otp/types.ts. -/
def DEFAULT_HASH_OPTIONS : HashOptions :=
  { algorithm := some HashAlgorithm.sha256, salt := some "" }

/-- JS object spread `{...cur, ...o}`: keys present in `o` win. -/
def HashOptions.merge (cur o : HashOptions) : HashOptions :=
  { algorithm := o.algorithm <|> cur.algorithm, salt := o.salt <|> cur.salt }

/-- `OtpOptions` from src/otp/types.ts; both keys are optional. -/
structure OtpOptions where
  length : Option Nat
  numbersOnly : Option Bool
deriving DecidableEq

/-- `DEFAULT_OTP_OPTIONS` from src/otp/types.ts. -/
def DEFAULT_OTP_OPTIONS : OtpOptions :=
  { length := some 6, numbersOnly := some true }

/-- JS object spread `{...cur, ...o}`: keys present in `o` win. -/
def OtpOptions.merge (cur o : OtpOptions) : OtpOptions :=
  { length := o.length <|> cur.length, numbersOnly := o.numbersOnly <|> cur.numbersOnly }

/-- `OtpGenerator.NUMBERS` from src/otp/OtpGenerator.ts. -/
def NUMBERS : String := "0123456789"

/-- `OtpGenerator.ALPHA_NUMERIC` from src/otp/OtpGenerator.ts. -/
def ALPHA_NUMERIC : String := "ABCDEFGHIJKLMNOPQRSTUVWXYZ0123456789"

/-- JS `String.prototype.charAt i`: the one-character string at index `i`,
or the empty string out of range. -/
def jsCharAt (s : String) (i : Nat) : String :=
  if h : i < s.data.length then String.singleton (s.data.get ⟨i, h⟩) else ""

/-- JS `String.prototype.length` (UTF-16 units; the alphabets here are
ASCII, so it is the character count). -/
def jsLength (s : String) : Nat := s.data.length

/-- The state held by an `OtpGenerator` instance: its stored options. -/
structure OtpGenerator where
  options : OtpOptions
deriving DecidableEq

/-- `OtpGenerator` constructor: `this.options = {...DEFAULT_OTP_OPTIONS, ...options}`. -/
def OtpGenerator.init (options : OtpOptions) : OtpGenerator :=
  ⟨DEFAULT_OTP_OPTIONS.merge options⟩

/-- `OtpGenerator.setOptions`: `this.options = {...this.options, ...options}`. -/
def OtpGenerator.setOptions (g : OtpGenerator) (options : OtpOptions) : OtpGenerator :=
  ⟨g.options.merge options⟩

/-- `OtpGenerator.generate`.  `bytes i` is the i-th byte of the
`randomBytes(length)` output.  An absent `length` behaves as 0 (the JS
loop guard `i < undefined` is false); an absent `numbersOnly` is falsy,
selecting `ALPHA_NUMERIC`.  Each position appends
`chars.charAt(randomValues[i] % chars.length)`. -/
def OtpGenerator.generate (g : OtpGenerator) (bytes : Nat → Nat) : String :=
  let chars := if g.options.numbersOnly.getD false then NUMBERS else ALPHA_NUMERIC
  (List.range (g.options.length.getD 0)).foldl
    (fun otp i => otp ++ jsCharAt chars (bytes i % jsLength chars)) ""

/-- Abstract model of Node `createHmac(algorithm, key).update(msg).digest('base64')`:
a deterministic external primitive, taken as a parameter. -/
def HmacFn : Type := Option HashAlgorithm → Option String → String → String

/-- The state held by an `OtpHashService` instance: its stored options. -/
structure OtpHashService where
  options : HashOptions
deriving DecidableEq

/-- `OtpHashService` constructor: `this.options = {...DEFAULT_HASH_OPTIONS, ...options}`. -/
def OtpHashService.init (options : HashOptions) : OtpHashService :=
  ⟨DEFAULT_HASH_OPTIONS.merge options⟩

/-- `OtpHashService.setOptions`: `this.options = {...this.options, ...options}`. -/
def OtpHashService.setOptions (s : OtpHashService) (options : HashOptions) : OtpHashService :=
  ⟨s.options.merge options⟩

/-- `OtpHashService.createHash`: destructures `{algorithm, salt}` from the
stored options and forwards them to the HMAC primitive, returning the
base64 digest. -/
def OtpHashService.createHash (s : OtpHashService) (hmac : HmacFn) (otp : String) : String :=
  hmac s.options.algorithm s.options.salt otp

/-- Node `crypto.timingSafeEqual(Buffer.from a, Buffer.from b)`: throws
(`.error ()`) when the UTF-8 byte lengths differ, otherwise byte
equality, which (UTF-8 being injective) is string equality. -/
def timingSafeEqual (a b : String) : Except Unit Bool :=
  if a.utf8ByteSize = b.utf8ByteSize then Except.ok (a == b) else Except.error ()

/-- `OtpHashService.verifyHash`: recomputes the digest of `otp` and
compares it with the stored `hash` via `timingSafeEqual`. -/
def OtpHashService.verifyHash (s : OtpHashService) (hmac : HmacFn) (otp hash : String) :
    Except Unit Bool :=
  timingSafeEqual (s.createHash hmac otp) hash

/-- `OtpValidationResult` from src/otp/types.ts; `expired` is optional. -/
structure OtpValidationResult where
  valid : Bool
  expired : Option Bool
deriving DecidableEq

/-- `OtpGenerationResult` from src/otp/types.ts; `expiresAt` is optional
and modelled by its millisecond epoch value. -/
structure OtpGenerationResult where
  otp : String
  hash : String
  expiresAt : Option Int
deriving DecidableEq

/-- Variant 1 of `OtpService` (the first class in the source file):
`expiryTimeMs : number | null`, constructor default `null`. -/
structure OtpService1 where
  generator : OtpGenerator
  hashService : OtpHashService
  expiryTimeMs : Option Int
deriving DecidableEq

/-- Variant 1 constructor body (explicit expiry argument). -/
def OtpService1.init (options : OtpOptions) (hashOptions : HashOptions)
    (expiryTimeMs : Option Int) : OtpService1 :=
  ⟨OtpGenerator.init options, OtpHashService.init hashOptions, expiryTimeMs⟩

/-- Variant 1 constructor with its default third argument, `null`. -/
def OtpService1.initDefault (options : OtpOptions) (hashOptions : HashOptions) : OtpService1 :=
  OtpService1.init options hashOptions none

/-- Variant 1 `checkExpiry`: `if (this.expiryTimeMs && createdAt) { return
new Date() > new Date(createdAt.getTime() + this.expiryTimeMs); } return false;`.
JS truthiness: both `null` and `0` are falsy; a `Date` object is always truthy. -/
def OtpService1.checkExpiry (s : OtpService1) (createdAt : Option Int) (now : Int) : Bool :=
  match s.expiryTimeMs, createdAt with
  | some t, some c => t != 0 && decide (c + t < now)
  | _, _ => false

/-- Variant 1 `validateOtp`. -/
def OtpService1.validateOtp (s : OtpService1) (hmac : HmacFn) (otp hash : String)
    (createdAt : Option Int) (now : Int) : Except Unit OtpValidationResult :=
  if s.checkExpiry createdAt now then Except.ok ⟨false, some true⟩
  else (s.hashService.verifyHash hmac otp hash).map fun b => ⟨b, none⟩

/-- Variant 1 `createOtp`: `expiresAt` is set only when `this.expiryTimeMs`
is truthy (`if (this.expiryTimeMs)`), i.e. neither `null` nor `0`. -/
def OtpService1.createOtp (s : OtpService1) (hmac : HmacFn) (bytes : Nat → Nat)
    (now : Int) : OtpGenerationResult :=
  let otp := s.generator.generate bytes
  let hash := s.hashService.createHash hmac otp
  let expiresAt : Option Int :=
    match s.expiryTimeMs with
    | some t => if t != 0 then some (now + t) else none
    | none => none
  ⟨otp, hash, expiresAt⟩

/-- Variant 2 of `OtpService` (the second class in the source file):
`expiryTimeMs : number`, constructor default `DEFAULT_EXPIRY_TIME_MS`. -/
structure OtpService2 where
  generator : OtpGenerator
  hashService : OtpHashService
  expiryTimeMs : Int
deriving DecidableEq

/-- `OtpService.DEFAULT_EXPIRY_TIME_MS = 10 * 60 * 1000` (variant 2). -/
def OtpService2.DEFAULT_EXPIRY_TIME_MS : Int := 10 * 60 * 1000

/-- Variant 2 constructor body (explicit expiry argument). -/
def OtpService2.init (options : OtpOptions) (hashOptions : HashOptions)
    (expiryTimeMs : Int) : OtpService2 :=
  ⟨OtpGenerator.init options, OtpHashService.init hashOptions, expiryTimeMs⟩

/-- Variant 2 constructor with its default third argument. -/
def OtpService2.initDefault (options : OtpOptions) (hashOptions : HashOptions) : OtpService2 :=
  OtpService2.init options hashOptions OtpService2.DEFAULT_EXPIRY_TIME_MS

/-- Variant 2 `checkExpiry`; textually the same body as variant 1, but
`expiryTimeMs` is a plain number, so only `0` is falsy. -/
def OtpService2.checkExpiry (s : OtpService2) (createdAt : Option Int) (now : Int) : Bool :=
  match createdAt with
  | some c => s.expiryTimeMs != 0 && decide (c + s.expiryTimeMs < now)
  | none => false

/-- Variant 2 `validateOtp`. -/
def OtpService2.validateOtp (s : OtpService2) (hmac : HmacFn) (otp hash : String)
    (createdAt : Option Int) (now : Int) : Except Unit OtpValidationResult :=
  if s.checkExpiry createdAt now then Except.ok ⟨false, some true⟩
  else (s.hashService.verifyHash hmac otp hash).map fun b => ⟨b, none⟩

/-- Variant 2 `createOtp`: `expiresAt: new Date(Date.now() + this.expiryTimeMs)`
is always present. -/
def OtpService2.createOtp (s : OtpService2) (hmac : HmacFn) (bytes : Nat → Nat)
    (now : Int) : OtpGenerationResult :=
  let otp := s.generator.generate bytes
  ⟨otp, s.hashService.createHash hmac otp, some (now + s.expiryTimeMs)⟩

/-- A concrete instantiation of the abstract HMAC primitive, used to
evaluate the embedding on closed inputs. -/
def hmacModel : HmacFn :=
  fun a s m =>
    (match a with
      | some HashAlgorithm.sha256 => "p"
      | some HashAlgorithm.sha512 => "q"
      | none => "r") ++ s.getD "u" ++ ":" ++ m

theorem str_data_append (a b : String) : (a ++ b).data = a.data ++ b.data := rfl

theorem foldl_charAt_data (A : String) (f : Nat → Nat) (hf : ∀ i, f i < A.data.length) :
    ∀ (n : Nat) (acc : String),
      ((List.range n).foldl (fun otp i => otp ++ jsCharAt A (f i)) acc).data
        = acc.data ++ ((List.range n).map fun i => A.data.getD (f i) ' ') := by
  intro n
  induction n with
  | zero => intro acc; simp
  | succ n ih =>
      intro acc
      rw [List.range_succ, List.foldl_append, List.foldl_cons, List.foldl_nil,
        str_data_append, ih, List.map_append, List.map_cons, List.map_nil]
      have hlt := hf n
      rw [jsCharAt, dif_pos hlt, List.getD_eq_get _ _ hlt]
      simp [String.singleton]

/-- Claim C4: for every generator state whose configured length is a
positive integer `l`, `generate` returns a string of exactly `l`
characters whose i-th character is `alphabet[(bytes i) % |alphabet|]`,
where the alphabet is the 10 digits when `numbersOnly` is true and the 26
uppercase letters followed by the 10 digits when it is false; every
output character lies in that alphabet. -/
theorem generate_character_map (g : OtpGenerator) (l : Nat) (nb : Bool) (bytes : Nat → Nat)
    (hl : g.options.length = some l) (hpos : 0 < l)
    (hnb : g.options.numbersOnly = some nb) :
    NUMBERS = "0123456789"
    ∧ ALPHA_NUMERIC = "ABCDEFGHIJKLMNOPQRSTUVWXYZ0123456789"
    ∧ (g.generate bytes).data
        = ((List.range l).map fun i =>
            (if nb then NUMBERS else ALPHA_NUMERIC).data.getD
              (bytes i % (if nb then NUMBERS else ALPHA_NUMERIC).data.length) ' ')
    ∧ (g.generate bytes).data.length = l
    ∧ ∀ ch ∈ (g.generate bytes).data, ch ∈ (if nb then NUMBERS else ALPHA_NUMERIC).data := by
  have hA : 0 < (if nb then NUMBERS else ALPHA_NUMERIC).data.length := by
    cases nb <;> decide
  have hmain : (g.generate bytes).data
      = ((List.range l).map fun i =>
          (if nb then NUMBERS else ALPHA_NUMERIC).data.getD
            (bytes i % (if nb then NUMBERS else ALPHA_NUMERIC).data.length) ' ') := by
    have := foldl_charAt_data (if nb then NUMBERS else ALPHA_NUMERIC)
      (fun i => bytes i % jsLength (if nb then NUMBERS else ALPHA_NUMERIC))
      (fun i => Nat.mod_lt _ hA) l ""
    rw [OtpGenerator.generate, hl, hnb]
    simpa [jsLength] using this
  refine ⟨rfl, rfl, hmain, ?_, ?_⟩
  · rw [hmain]; simp
  · intro ch hch
    rw [hmain] at hch
    obtain ⟨i, _, rfl⟩ := List.mem_map.mp hch
    have hlt : bytes i % (if nb then NUMBERS else ALPHA_NUMERIC).data.length
        < (if nb then NUMBERS else ALPHA_NUMERIC).data.length := Nat.mod_lt _ hA
    rw [List.getD_eq_get _ _ hlt]
    exact List.get_mem _ _ hlt

/-- Fixed sample of random bytes, used to evaluate the model concretely. -/
def sampleBytes : Nat → Nat := fun i => 97 * i + 250

/-- Witness for `generate_character_map` at a concrete generator state. -/
theorem generate_character_map_witness :
    (OtpGenerator.init ⟨some 3, some true⟩).options.length = some 3
    ∧ (0:Nat) < 3
    ∧ ((OtpGenerator.init ⟨some 3, some true⟩).generate sampleBytes).data
        = ((List.range 3).map fun i =>
            (if true then NUMBERS else ALPHA_NUMERIC).data.getD
              (sampleBytes i % (if true then NUMBERS else ALPHA_NUMERIC).data.length) ' ') :=
  ⟨rfl, by decide,
    (generate_character_map (OtpGenerator.init ⟨some 3, some true⟩) 3 true sampleBytes
      rfl (by decide) rfl).2.2.1⟩

/-- Claim C2: under any fixed stored configuration, `verifyHash c (createHash c)`
returns true; and for a different code whose digest differs from that of
`c` (the standard collision-freeness idealisation of HMAC; a fixed
algorithm also gives digests of one fixed byte length, whence the length
hypothesis), `verifyHash` returns false. -/
theorem verifyHash_roundtrip (hmac : HmacFn) (o : HashOptions) (c c' : String)
    (hne : c' ≠ c)
    (hdig : (OtpHashService.init o).createHash hmac c'
        ≠ (OtpHashService.init o).createHash hmac c)
    (hlen : ((OtpHashService.init o).createHash hmac c').utf8ByteSize
        = ((OtpHashService.init o).createHash hmac c).utf8ByteSize) :
    (OtpHashService.init o).verifyHash hmac c ((OtpHashService.init o).createHash hmac c)
      = Except.ok true
    ∧ (OtpHashService.init o).verifyHash hmac c' ((OtpHashService.init o).createHash hmac c)
      = Except.ok false := by
  constructor
  · simp [OtpHashService.verifyHash, timingSafeEqual]
  · rw [OtpHashService.verifyHash, timingSafeEqual, if_pos hlen]
    simp [hdig]

/-- Witness for `verifyHash_roundtrip` at a concrete configuration and codes. -/
theorem verifyHash_roundtrip_witness :
    ("1" : String) ≠ "0"
    ∧ (OtpHashService.init ⟨none, none⟩).verifyHash hmacModel "0"
        ((OtpHashService.init ⟨none, none⟩).createHash hmacModel "0") = Except.ok true
    ∧ (OtpHashService.init ⟨none, none⟩).verifyHash hmacModel "1"
        ((OtpHashService.init ⟨none, none⟩).createHash hmacModel "0") = Except.ok false :=
  ⟨by decide,
    (verifyHash_roundtrip hmacModel ⟨none, none⟩ "0" "1" (by decide) (by decide) (by decide)).1,
    (verifyHash_roundtrip hmacModel ⟨none, none⟩ "0" "1" (by decide) (by decide) (by decide)).2⟩

/-- Claim C7: `createHash` factors through the stored `(algorithm, salt)`
pair: two service states whose stored algorithm and salt agree produce
identical digests for every code, so the commitment is a deterministic
function of (code, algorithm, salt). -/
theorem createHash_deterministic (hmac : HmacFn) (o1 o2 : HashOptions) (c : String)
    (halg : (OtpHashService.init o1).options.algorithm
        = (OtpHashService.init o2).options.algorithm)
    (hsalt : (OtpHashService.init o1).options.salt = (OtpHashService.init o2).options.salt) :
    (OtpHashService.init o1).createHash hmac c = (OtpHashService.init o2).createHash hmac c := by
  rw [OtpHashService.createHash, OtpHashService.createHash, halg, hsalt]

/-- Witness for `createHash_deterministic`: the empty configuration and an
explicitly written-out default configuration hash identically. -/
theorem createHash_deterministic_witness :
    (OtpHashService.init ⟨none, none⟩).createHash hmacModel "314159"
      = (OtpHashService.init ⟨some HashAlgorithm.sha256, some ""⟩).createHash hmacModel "314159" :=
  createHash_deterministic hmacModel ⟨none, none⟩ ⟨some HashAlgorithm.sha256, some ""⟩
    "314159" rfl rfl

/-- Claim C9: `setOptions` on the generator and on the commitment service
replaces exactly the supplied fields (`o.f <|> cur.f`: a supplied field
wins, an absent one keeps the previous value); and a configuration in
which algorithm and salt were never supplied — neither at construction
nor in a later `setOptions` — hashes with the defaults `sha256` and the
empty salt. -/
theorem setOptions_frame (hmac : HmacFn) (g : OtpGenerator) (oG : OtpOptions)
    (s : OtpHashService) (oH p : HashOptions) (c : String)
    (hpa : p.algorithm = none) (hps : p.salt = none) :
    (g.setOptions oG).options.length = (oG.length <|> g.options.length)
    ∧ (g.setOptions oG).options.numbersOnly = (oG.numbersOnly <|> g.options.numbersOnly)
    ∧ (s.setOptions oH).options.algorithm = (oH.algorithm <|> s.options.algorithm)
    ∧ (s.setOptions oH).options.salt = (oH.salt <|> s.options.salt)
    ∧ ((OtpHashService.init ⟨none, none⟩).setOptions p).createHash hmac c
        = hmac (some HashAlgorithm.sha256) (some "") c := by
  refine ⟨rfl, rfl, rfl, rfl, ?_⟩
  simp [OtpHashService.createHash, OtpHashService.setOptions, OtpHashService.init,
    HashOptions.merge, DEFAULT_HASH_OPTIONS, hpa, hps]

/-- Witness for `setOptions_frame` at concrete states and partial updates. -/
theorem setOptions_frame_witness :
    ((OtpGenerator.init ⟨some 4, none⟩).setOptions ⟨none, some false⟩).options.length
        = ((none : Option Nat) <|> (OtpGenerator.init ⟨some 4, none⟩).options.length)
    ∧ ((OtpGenerator.init ⟨some 4, none⟩).setOptions ⟨none, some false⟩).options.numbersOnly
        = (some false <|> (OtpGenerator.init ⟨some 4, none⟩).options.numbersOnly)
    ∧ ((OtpHashService.init ⟨some HashAlgorithm.sha512, none⟩).setOptions
          ⟨none, some "x"⟩).options.algorithm
        = ((none : Option HashAlgorithm)
            <|> (OtpHashService.init ⟨some HashAlgorithm.sha512, none⟩).options.algorithm)
    ∧ ((OtpHashService.init ⟨some HashAlgorithm.sha512, none⟩).setOptions
          ⟨none, some "x"⟩).options.salt
        = (some "x" <|> (OtpHashService.init ⟨some HashAlgorithm.sha512, none⟩).options.salt)
    ∧ ((OtpHashService.init ⟨none, none⟩).setOptions ⟨none, none⟩).createHash hmacModel "z"
        = hmacModel (some HashAlgorithm.sha256) (some "") "z" :=
  setOptions_frame hmacModel (OtpGenerator.init ⟨some 4, none⟩) ⟨none, some false⟩
    (OtpHashService.init ⟨some HashAlgorithm.sha512, none⟩) ⟨none, some "x"⟩ ⟨none, none⟩
    "z" rfl rfl

/-- Claim C3 (code behaviour at the failing input): a stored commitment
whose byte length differs from the recomputed digest's makes
`timingSafeEqual` throw, so `verifyHash` — and `validateOtp` through it —
raises instead of returning false.  Here the service is built with the
default configuration and the stored commitment is the empty string,
whose length cannot match any digest. -/
theorem verifyHash_length_mismatch_throws :
    (OtpHashService.init ⟨none, none⟩).verifyHash hmacModel "123456" "" = Except.error ()
    ∧ (OtpService1.initDefault ⟨none, none⟩ ⟨none, none⟩).validateOtp hmacModel
        "123456" "" none 0 = Except.error () := by
  exact ⟨rfl, rfl⟩

/-- Claim C1: when an expiry duration is enabled (non-null, nonzero — JS
truthiness) and `createdAt` is supplied and `now` is strictly past
`createdAt + duration`, `validateOtp` answers `{valid: false, expired: true}`
whatever the code and commitment are; whenever `checkExpiry` does not
fire — which happens exactly when no enabled duration, no `createdAt`, or
not yet strictly expired — the result is `verifyHash`'s answer with no
`expired` field. -/
theorem validateOtp_expiry_semantics (hmac : HmacFn) (s : OtpService1) (otp hash : String)
    (createdAt : Option Int) (now : Int) :
    (∀ t i, s.expiryTimeMs = some t → t ≠ 0 → createdAt = some i → i + t < now →
      s.validateOtp hmac otp hash createdAt now = Except.ok ⟨false, some true⟩)
    ∧ (s.checkExpiry createdAt now = false →
      s.validateOtp hmac otp hash createdAt now
        = (s.hashService.verifyHash hmac otp hash).map fun b => ⟨b, none⟩)
    ∧ (s.checkExpiry createdAt now = false
        ↔ ¬ ∃ t i, s.expiryTimeMs = some t ∧ t ≠ 0 ∧ createdAt = some i ∧ i + t < now) := by
  refine ⟨?_, ?_, ?_⟩
  · intro t i het htz hca hlt
    have hc : s.checkExpiry createdAt now = true := by
      simp only [OtpService1.checkExpiry, het, hca]
      simp [htz, hlt]
    simp [OtpService1.validateOtp, hc]
  · intro hc
    simp [OtpService1.validateOtp, hc]
  · cases het : s.expiryTimeMs with
    | none => simp [OtpService1.checkExpiry, het]
    | some t =>
        cases hca : createdAt with
        | none => simp [OtpService1.checkExpiry, het, hca]
        | some i =>
            by_cases ht0 : t = 0
            · subst ht0
              simp [OtpService1.checkExpiry, het, hca]
            · by_cases hlt : i + t < now
              · simp [OtpService1.checkExpiry, het, hca, ht0, hlt]
              · simp [OtpService1.checkExpiry, het, hca, ht0, hlt]

/-- Witness for `validateOtp_expiry_semantics`: a 5 ms window, issued at 0,
checked at 10, reports expired whatever the commitment was. -/
theorem validateOtp_expiry_semantics_witness :
    (OtpService1.init ⟨none, none⟩ ⟨none, none⟩ (some 5)).validateOtp hmacModel
      "123456" "p:123456" (some 0) 10 = Except.ok ⟨false, some true⟩ :=
  (validateOtp_expiry_semantics hmacModel
      (OtpService1.init ⟨none, none⟩ ⟨none, none⟩ (some 5)) "123456" "p:123456"
      (some 0) 10).1 5 0 rfl (by decide) rfl (by decide)

/-- Claim C5: strict millisecond boundary of the expiry test: with window
`d > 0`, a code issued at `now - d - 1` is expired; issued at `now - d + 1`
or exactly at `now - d` (so that `issuedAt + d = now`), the expiry check
passes and the commitment comparison decides. -/
theorem expiry_boundary_strict (hmac : HmacFn) (g : OtpOptions) (h : HashOptions) (d : Int)
    (hd : 0 < d) (otp hash : String) (now : Int) :
    (OtpService1.init g h (some d)).validateOtp hmac otp hash (some (now - d - 1)) now
      = Except.ok ⟨false, some true⟩
    ∧ (OtpService1.init g h (some d)).validateOtp hmac otp hash (some (now - d + 1)) now
      = ((OtpHashService.init h).verifyHash hmac otp hash).map (fun b => ⟨b, none⟩)
    ∧ (OtpService1.init g h (some d)).validateOtp hmac otp hash (some (now - d)) now
      = ((OtpHashService.init h).verifyHash hmac otp hash).map (fun b => ⟨b, none⟩) := by
  have hd0 : d ≠ 0 := by omega
  have h1 : now - d - 1 + d < now := by omega
  have h2 : ¬ (now - d + 1 + d < now) := by omega
  have h3 : ¬ (now - d + d < now) := by omega
  refine ⟨?_, ?_, ?_⟩ <;>
    simp [OtpService1.validateOtp, OtpService1.checkExpiry, OtpService1.init, hd0, h1, h2, h3]

/-- Witness for `expiry_boundary_strict` with a 5 ms window at `now = 1000`. -/
theorem expiry_boundary_strict_witness :
    (0 : Int) < 5
    ∧ (OtpService1.init ⟨none, none⟩ ⟨none, none⟩ (some 5)).validateOtp hmacModel
        "1" "x" (some (1000 - 5 - 1)) 1000 = Except.ok ⟨false, some true⟩ :=
  ⟨by decide,
    (expiry_boundary_strict hmacModel ⟨none, none⟩ ⟨none, none⟩ 5 (by decide) "1" "x" 1000).1⟩

/-- Claim C8: variant 1 constructed without an expiry argument stores
`null` (never expires); variant 2 defaults to a fixed 10-minute window
(600000 ms); and with the same generator options, hash options and the
same explicitly supplied positive duration, the two variants'
`validateOtp` agree on every input. -/
theorem variants_agree (hmac : HmacFn) (g : OtpOptions) (h : HashOptions) (t : Int)
    (ht : 0 < t) (otp hash : String) (createdAt : Option Int) (now : Int) :
    (OtpService1.initDefault g h).expiryTimeMs = none
    ∧ (OtpService2.initDefault g h).expiryTimeMs = 600000
    ∧ OtpService2.DEFAULT_EXPIRY_TIME_MS = 600000
    ∧ (OtpService1.init g h (some t)).validateOtp hmac otp hash createdAt now
      = (OtpService2.init g h t).validateOtp hmac otp hash createdAt now := by
  refine ⟨rfl, by norm_num [OtpService2.initDefault, OtpService2.init,
    OtpService2.DEFAULT_EXPIRY_TIME_MS], by norm_num [OtpService2.DEFAULT_EXPIRY_TIME_MS], ?_⟩
  have hce : (OtpService1.init g h (some t)).checkExpiry createdAt now
      = (OtpService2.init g h t).checkExpiry createdAt now := by
    cases createdAt <;> rfl
  simp only [OtpService1.validateOtp, OtpService2.validateOtp]
  rw [hce]
  rfl

/-- Witness for `variants_agree` with a 7 ms window. -/
theorem variants_agree_witness :
    (0 : Int) < 7
    ∧ (OtpService1.init ⟨none, none⟩ ⟨none, none⟩ (some 7)).validateOtp hmacModel
        "42" "y" (some 3) 100
      = (OtpService2.init ⟨none, none⟩ ⟨none, none⟩ 7).validateOtp hmacModel
        "42" "y" (some 3) 100 :=
  ⟨by decide,
    (variants_agree hmacModel ⟨none, none⟩ ⟨none, none⟩ 7 (by decide) "42" "y"
      (some 3) 100).2.2.2⟩

/-- Claim C10: with `expiryTimeMs = 0`, both variants never report expiry
(0 is falsy in `this.expiryTimeMs && createdAt`), for arbitrarily old
`createdAt`; yet variant 2's `createOtp` still returns
`expiresAt = now + 0 = now`, an already-elapsed instant that validation
then ignores. -/
theorem zero_expiry_disables (hmac : HmacFn) (g : OtpOptions) (h : HashOptions)
    (otp hash : String) (createdAt : Option Int) (now : Int) (bytes : Nat → Nat) :
    (OtpService1.init g h (some 0)).validateOtp hmac otp hash createdAt now
      = ((OtpHashService.init h).verifyHash hmac otp hash).map (fun b => ⟨b, none⟩)
    ∧ (OtpService2.init g h 0).validateOtp hmac otp hash createdAt now
      = ((OtpHashService.init h).verifyHash hmac otp hash).map (fun b => ⟨b, none⟩)
    ∧ ((OtpService2.init g h 0).createOtp hmac bytes now).expiresAt = some now := by
  have hc1 : (OtpService1.init g h (some 0)).checkExpiry createdAt now = false := by
    cases createdAt <;> simp [OtpService1.checkExpiry, OtpService1.init]
  have hc2 : (OtpService2.init g h 0).checkExpiry createdAt now = false := by
    cases createdAt <;> simp [OtpService2.checkExpiry, OtpService2.init]
  refine ⟨?_, ?_, ?_⟩
  · simp only [OtpService1.validateOtp]
    rw [hc1]
    rfl
  · simp only [OtpService2.validateOtp]
    rw [hc2]
    rfl
  · simp [OtpService2.createOtp, OtpService2.init]

/-- Claim C6, counterexample to "expiresAt is present iff the expiry
policy is not never-expires": variant 1 built with the duration value 0 —
which is not the `null` never-expires sentinel — yields no `expiresAt`;
dually, variant 2 built with 0 never evaluates expiry (even for a
creation time a billion ms in the past) yet returns `expiresAt = now`. -/
theorem createOtp_expiresAt_cex :
    ((OtpService1.init ⟨none, none⟩ ⟨none, none⟩ (some 0)).createOtp hmacModel
        sampleBytes 0).expiresAt = none
    ∧ (OtpService1.init ⟨none, none⟩ ⟨none, none⟩ (some 0)).expiryTimeMs ≠ none
    ∧ ((OtpService2.init ⟨none, none⟩ ⟨none, none⟩ 0).createOtp hmacModel
        sampleBytes 0).expiresAt = some 0
    ∧ (OtpService2.init ⟨none, none⟩ ⟨none, none⟩ 0).checkExpiry
        (some (-1000000000)) 0 = false := by
  refine ⟨rfl, by decide, by decide, by decide⟩

/-- Claim C6 as amended: `createOtp` returns the generated code, its
commitment under the instance's hash configuration, and `expiresAt = now
+ duration` when present; in variant 1 `expiresAt` is present iff the
configured duration is neither `null` nor `0` (JS truthiness), and in
variant 2 it is always present. -/
theorem createOtp_result (hmac : HmacFn) (g : OtpOptions) (h : HashOptions)
    (tn : Option Int) (t : Int) (bytes : Nat → Nat) (now : Int) :
    ((OtpService1.init g h tn).createOtp hmac bytes now).otp
      = (OtpGenerator.init g).generate bytes
    ∧ ((OtpService1.init g h tn).createOtp hmac bytes now).hash
      = (OtpHashService.init h).createHash hmac
          (((OtpService1.init g h tn).createOtp hmac bytes now).otp)
    ∧ (((OtpService1.init g h tn).createOtp hmac bytes now).expiresAt ≠ none
        ↔ tn ≠ none ∧ tn ≠ some 0)
    ∧ (∀ dd, tn = some dd → dd ≠ 0 →
        ((OtpService1.init g h tn).createOtp hmac bytes now).expiresAt = some (now + dd))
    ∧ ((OtpService2.init g h t).createOtp hmac bytes now).otp
      = (OtpGenerator.init g).generate bytes
    ∧ ((OtpService2.init g h t).createOtp hmac bytes now).hash
      = (OtpHashService.init h).createHash hmac
          (((OtpService2.init g h t).createOtp hmac bytes now).otp)
    ∧ ((OtpService2.init g h t).createOtp hmac bytes now).expiresAt = some (now + t) := by
  refine ⟨rfl, rfl, ?_, ?_, rfl, rfl, rfl⟩
  · cases tn with
    | none => simp [OtpService1.createOtp, OtpService1.init]
    | some dd =>
        by_cases hd : dd = 0
        · subst hd
          simp [OtpService1.createOtp, OtpService1.init]
        · simp [OtpService1.createOtp, OtpService1.init, hd]
  · intro dd hdd hd0
    subst hdd
    simp [OtpService1.createOtp, OtpService1.init, hd0]

/-- Witness for `createOtp_result`: a 7 ms window at `now = 100`. -/
theorem createOtp_result_witness :
    ((OtpService1.init ⟨none, none⟩ ⟨none, none⟩ (some 7)).createOtp hmacModel
        sampleBytes 100).expiresAt = some (100 + 7) :=
  (createOtp_result hmacModel ⟨none, none⟩ ⟨none, none⟩ (some 7) 0 sampleBytes
    100).2.2.2.1 7 rfl (by decide)
